import Mathlib

/-!
Shallow embedding of `src/main.py`, a customs cargo-manifest query tool.

The core consists of:
* `CustomsQuery.fetch_data` (lines 21-112): a paginated fetch loop against a
  remote endpoint, modelled here with an explicit server oracle (page number
  to HTTP outcome) and a fuel parameter for the `while True` loop;
* `CustomsQuery._parse_json_list` (lines 114-157): the row normalizer;
* `task` inside `main` (lines 370-461): the two-identifier orchestrator that
  merges run results and classifies the overall outcome.

Python's dynamically typed row values are modelled by `PyVal`; dictionaries
coming from the server by association lists; a value that is present with
value `None` is distinguished from an absent key.  Machine-level concerns
(sockets, threads, the Flet UI) are outside the claims and are not modelled;
the UI-visible outcome of `task` (status string plus the list handed to
`show_results`) is modelled exactly.
-/

/-- A Python value as it can occur in a server-returned row.  `other` stands
for any further object (list, dict, float NaN carrier, ...) that is neither
`None`, an int, a bool nor a string; such objects are truthy and are not
coercible by `int()`. -/
inductive PyVal where
  | null
  | intV (n : Int)
  | strV (s : String)
  | boolV (b : Bool)
  | other (tag : String)
deriving Repr, DecidableEq, Inhabited

/-- A raw upstream row: a JSON object, i.e. a key-value mapping.  An absent
key is modelled by the key not occurring in the list. -/
abbrev RawRow : Type := List (String × PyVal)

/-- Python `row.get(key)` without default: `some v` when the key is present
with value `v`, `Option.none` when absent. -/
def pyGet (row : RawRow) (key : String) : Option PyVal :=
  (row.find? (fun kv => kv.fst = key)).map Prod.snd

/-- Python `row.get(key, default)`. -/
def pyGetD (row : RawRow) (key : String) (default : PyVal) : PyVal :=
  (pyGet row key).getD default

/-- Python `row.get(key)`: an absent key yields `None`. -/
def pyGetN (row : RawRow) (key : String) : PyVal :=
  (pyGet row key).getD PyVal.null

/-- Python truthiness of a `PyVal` (`if raw_date ...`). -/
def truthy : PyVal → Bool
  | PyVal.null => false
  | PyVal.intV n => n ≠ 0
  | PyVal.strV s => s ≠ ""
  | PyVal.boolV b => b
  | PyVal.other _ => true

/-- Python `isinstance(v, str)`. -/
def isStrPy : PyVal → Bool
  | PyVal.strV _ => true
  | _ => false

/-- The underlying string of a string value (only inspected under an
`isStrPy` guard). -/
def pyStrVal : PyVal → String
  | PyVal.strV s => s
  | _ => ""

/-- Python slice `s[a:b]` for `0 ≤ a ≤ b` (the only shape the source uses):
character-based, truncating silently at the end of the string. -/
def pySlice (s : String) (a b : Nat) : String :=
  String.mk ((s.data.drop a).take (b - a))

/-- Python `s[:n]` (used for the raw-body excerpt `resp.text[:200]`). -/
def pyTakeStr (s : String) (n : Nat) : String :=
  String.mk (s.data.take n)

/-- All-digits parse helper for `int(str)`. -/
def parseDigits (cs : List Char) : Option Nat :=
  if cs ≠ [] ∧ cs.all Char.isDigit then
    some (cs.foldl (fun a c => a * 10 + (c.toNat - 48)) 0)
  else
    Option.none

/-- Strip leading and trailing whitespace from a character list (Python
`int()` ignores surrounding whitespace). -/
def stripWs (cs : List Char) : List Char :=
  ((cs.dropWhile Char.isWhitespace).reverse.dropWhile Char.isWhitespace).reverse

/-- Python `int(s)` on a string: surrounding whitespace is stripped, an
optional sign is allowed, then at least one digit.  (Underscore digit
separators, accepted by CPython, do not occur upstream and are not
modelled.) -/
def pyParseInt (s : String) : Option Int :=
  match stripWs s.data with
  | [] => Option.none
  | c :: rest =>
    if c = '-' then (parseDigits rest).map (fun n => -(n : Int))
    else if c = '+' then (parseDigits rest).map (fun n => (n : Int))
    else (parseDigits (c :: rest)).map (fun n => (n : Int))

/-- Python `int(v)`: the `Except` carries the exception message raised for a
non-coercible value. -/
def pyIntE : PyVal → Except String Int
  | PyVal.intV n => Except.ok n
  | PyVal.boolV b => Except.ok (if b then 1 else 0)
  | PyVal.strV s =>
    match pyParseInt s with
    | some n => Except.ok n
    | Option.none => Except.error ("invalid literal for int() with base 10: " ++ s)
  | PyVal.null => Except.error "int() argument must be a string or a number, not NoneType"
  | PyVal.other tag => Except.error ("int() argument cannot convert " ++ tag)

/-- A Python `try: ... except: ...` around a body whose only possible
exception sites are reflected in the `Except`. -/
def tryE {α : Type} (body : Except String α) (handler : String → α) : α :=
  match body with
  | Except.ok a => a
  | Except.error e => handler e

/-- Body of the quantity `try` block (main.py lines 143-144):
`str(int(qty)) if qty is not None else "0"`.  The `int()` call is the only
expression in the block that can raise. -/
def qtyTryBody (qty : PyVal) : Except String String :=
  if qty = PyVal.null then Except.ok "0"
  else (pyIntE qty).map (fun n => toString n)

/-- Quantity normalization (main.py lines 141-146): the `except` branch
yields `"0"`. -/
def qtyStr (qty : PyVal) : String :=
  tryE (qtyTryBody qty) (fun _ => "0")

/-- The sentinel `"尚無時間"` used when no warehousing timestamp is
available. -/
def noTimestampSentinel : String := "尚無時間"

/-- The positional reformatting of a raw timestamp string (main.py lines
132-137): `raw[0:4]/raw[4:6]/raw[6:8] raw[9:11]:raw[11:13]`. -/
def fmtInWareDate (s : String) : String :=
  pySlice s 0 4 ++ "/" ++ pySlice s 4 6 ++ "/" ++ pySlice s 6 8 ++ " " ++
    pySlice s 9 11 ++ ":" ++ pySlice s 11 13

/-- Timestamp normalization (main.py lines 127-139).  The guard is
`raw_date and isinstance(raw_date, str) and len(raw_date) >= 12`; the
`try`/`except` around the slicing cannot fire (Python slicing and f-string
formatting are total), so the `fmt_date = raw_date` fallback is dead code
and the guarded branch always produces `fmtInWareDate`. -/
def dateStr (raw : PyVal) : String :=
  if truthy raw && isStrPy raw && decide (12 ≤ (pyStrVal raw).length) then
    fmtInWareDate (pyStrVal raw)
  else
    noTimestampSentinel

/-- The canonical per-row record built at main.py lines 148-155.  The
`so_no`, `decl_no` and `vsl_name` fields store whatever `row.get` returned
(hence `PyVal`); `qty` and `date` are always strings by construction. -/
structure Item where
  so_no : PyVal
  decl_no : PyVal
  vsl_name : PyVal
  qty : String
  date : String
  query_code : String
deriving Repr, DecidableEq

/-- One iteration of the normalizer loop body (main.py lines 126-156),
producing the item appended for one raw row.  `qc` is the `query_code`
keyword argument (Python `None` modelled as `Option.none`); the stored field
is `query_code or ""`. -/
def parseRow (qc : Option String) (row : RawRow) : Item :=
  { so_no := pyGetD row "soNo" (PyVal.strV "無 S/O")
    decl_no := pyGetD row "declNo" (PyVal.strV "")
    vsl_name := pyGetD row "vslName" (PyVal.strV "")
    qty := qtyStr (pyGetN row "packQty1")
    date := dateStr (pyGetN row "inWareDate1")
    query_code := qc.getD "" }

/-- `CustomsQuery._parse_json_list` (main.py lines 114-157): starts from an
empty `results` list and appends one item per raw row, in order. -/
def _parse_json_list (raw_list : List RawRow) (qc : Option String) : List Item :=
  raw_list.foldl (fun results row => results ++ [parseRow qc row]) []

/-!
## Pagination engine (`CustomsQuery.fetch_data`, main.py lines 21-112)

One outcome of `self.session.post(...)` followed by the checks of lines
67-98 is modelled by `HttpOutcome`.  The model restricts parsed JSON bodies
to the field shapes the claims exercise: the `total` field absent or an
integer, the `data` field absent or a list of objects.  (A non-dict JSON
body, a non-integer `total` or a non-list `data` would raise an uncaught
exception at line 93/94/105 — no claim is about those shapes and they are
outside the model.)  The warm-up GET of lines 33-41 has its exception
swallowed and contributes no observable state to the claims, so it is not
modelled.
-/

/-- A parsed-or-unparseable HTTP response body. `badJson` is a body on which
`resp.json()` raises; `text` is `resp.text` used for the diagnostic
excerpt. -/
inductive RespBody where
  | badJson (msg : String) (text : String)
  | json (total : Option Int) (data : Option (List RawRow))
deriving Repr, DecidableEq

/-- The outcome of one page request: the POST either raises (`exc`) or
returns a response with a status code and a body. -/
inductive HttpOutcome where
  | exc (msg : String)
  | resp (status : Nat) (body : RespBody)
deriving Repr, DecidableEq

/-- The server as an oracle: the outcome of requesting page `p`.  Each page
is requested at most once per run, so a per-page function models one run's
transcript. -/
def Server : Type := Nat → HttpOutcome

/-- One element of the list returned by `fetch_data`: the code returns
either a list of parsed item dicts or a one-element list holding an error
dict `{"error": ..., "raw": ...?}` — `Entry` covers both shapes. -/
inductive Entry where
  | errDict (msg : String) (raw : Option String)
  | item (it : Item)
deriving Repr, DecidableEq

/-- Python `"error" in data[0]` for the dictionaries this program builds:
item dicts have the fixed keys of lines 148-155, which do not include
`"error"`. -/
def entryHasErrorKey : Entry → Bool
  | Entry.errDict _ _ => true
  | Entry.item _ => false

/-- `data[0].get("error")` on a dict known to carry the key. -/
def errMsgOf : Entry → String
  | Entry.errDict m _ => m
  | Entry.item _ => ""

/-- The item entries of a run result (the "records" of the claims). -/
def itemsOf (out : List Entry) : List Item :=
  out.filterMap (fun e => match e with
    | Entry.item it => some it
    | Entry.errDict _ _ => Option.none)

/-- Page size requested by the engine (main.py line 45, `tab0.rowNum`). -/
def page_size : Nat := 500

/-- The result of one iteration of the `while True` loop of lines 47-110:
either the run is over with a result (`done`, covering every `return` and
`break`) or pagination continues with the next page number and the grown
accumulator (`cont`). -/
inductive StepRes where
  | done (out : List Entry)
  | cont (st : Nat × List Entry)
deriving Repr, DecidableEq

/-- One loop iteration of `fetch_data` for state `(current_page,
all_results)`.  Mirrors lines 67-110 in order: POST exception check, status
check, `resp.json()` check, `total`/`data` defaulting, empty-page break,
row parsing and accumulation, then the `len(all_results) >= total_count`
stop condition.  The progress callback (line 49) and the inter-page sleep
(line 110) are side effects with no bearing on the result. -/
def fetchStep (server : Server) (qc : Option String) (st : Nat × List Entry) : StepRes :=
  match server st.1 with
  | HttpOutcome.exc m =>
    if st.2 = [] then StepRes.done [Entry.errDict ("連線失敗：" ++ m) Option.none]
    else StepRes.done st.2
  | HttpOutcome.resp status body =>
    if status ≠ 200 then
      if st.2 = [] then
        StepRes.done [Entry.errDict ("伺服器錯誤：HTTP " ++ toString status) Option.none]
      else StepRes.done st.2
    else
      match body with
      | RespBody.badJson m text =>
        if st.2 = [] then
          StepRes.done [Entry.errDict ("資料解析錯誤：" ++ m) (some (pyTakeStr text 200))]
        else StepRes.done st.2
      | RespBody.json total data =>
        let total_count : Int := total.getD 0
        let raw_data : List RawRow := data.getD []
        if raw_data = [] then StepRes.done st.2
        else
          let all_results := st.2 ++ (_parse_json_list raw_data qc).map Entry.item
          if total_count ≤ (all_results.length : Int) then StepRes.done all_results
          else StepRes.cont (st.1 + 1, all_results)

/-- The `while True` loop, with fuel bounding the number of iterations; a
run that has not finished within the fuel yields `Option.none`.  The source
loop has no iteration bound, so termination statements quantify over
fuel. -/
def fetchLoop (server : Server) (qc : Option String) : Nat → Nat × List Entry → Option (List Entry)
  | 0, _ => Option.none
  | fuel + 1, st =>
    match fetchStep server qc st with
    | StepRes.done out => some out
    | StepRes.cont st2 => fetchLoop server qc fuel st2

/-- `CustomsQuery.fetch_data` (main.py lines 21-112): `query_code` defaults
to `vsl_reg_no` when `None` (lines 29-30); the loop starts at page 1 with an
empty accumulator (lines 43-44). -/
def fetch_data (server : Server) (vsl_reg_no : String) (query_code : Option String)
    (fuel : Nat) : Option (List Entry) :=
  fetchLoop server (some (query_code.getD vsl_reg_no)) fuel (1, [])

/-- `n` consecutive `cont` iterations from a state: `some st2` when the run,
started at `st`, is still paginating after `n` completed pages and stands at
state `st2`.  Used to speak about the states the loop actually reaches. -/
def iterCont (server : Server) (qc : Option String) : Nat → Nat × List Entry → Option (Nat × List Entry)
  | 0, st => some st
  | n + 1, st =>
    match fetchStep server qc st with
    | StepRes.done _ => Option.none
    | StepRes.cont st2 => iterCont server qc n st2

/-- The transport/parse-failure entry a page outcome would produce, when it
is a failure (lines 74-91): `some e` exactly when lines 67-91 would return
or break with error entry `e` on an empty accumulator. -/
def failEntryOf : HttpOutcome → Option Entry
  | HttpOutcome.exc m => some (Entry.errDict ("連線失敗：" ++ m) Option.none)
  | HttpOutcome.resp status body =>
    if status ≠ 200 then some (Entry.errDict ("伺服器錯誤：HTTP " ++ toString status) Option.none)
    else
      match body with
      | RespBody.badJson m text =>
        some (Entry.errDict ("資料解析錯誤：" ++ m) (some (pyTakeStr text 200)))
      | RespBody.json _ _ => Option.none

/-!
## Orchestrator (`task` inside `main`, main.py lines 370-461)

`task` runs `fetch_data` for the non-empty call signs, collects error
messages and merged records, and drives the UI.  Its observable outcome is
the status line plus the list handed to `show_results` (after the initial
`apply_filter()` call, which with an empty filter keyword shows the full
list); `TaskOutcome` records exactly that pair.
-/

/-- The observable outcome of one `task` run: the final `status_text` value
and the entry list handed to `show_results` (records, an error dict, or
empty). -/
structure TaskOutcome where
  status : String
  shown : List Entry
deriving Repr, DecidableEq

/-- Python `data and isinstance(data[0], dict) and "error" in data[0]`
(lines 385-389): every entry is a dict, so the test is: non-empty and first
entry carries the `"error"` key. -/
def errCheck (data : List Entry) : Bool :=
  match data with
  | [] => false
  | e :: _ => entryHasErrorKey e

/-- One identifier's contribution (lines 377-392 for south, 395-410 for
north): skipped when the code is empty; an error-shaped result contributes
one prefixed failure message; otherwise the records are appended. -/
def runContribution (tag : String) (code : String) (data : List Entry) :
    List Entry × List String :=
  if code = "" then ([], [])
  else if errCheck data then
    ([], [tag ++ code ++ " 查詢失敗：" ++ errMsgOf (data.headD (Entry.errDict "" Option.none))])
  else (data, [])

/-- The classification of lines 416-443 applied to the collected
`combined_results` and `error_messages`. -/
def taskClassify (combined : List Entry) (errors : List String) : TaskOutcome :=
  if combined = [] ∧ errors ≠ [] then
    { status := "查詢失敗，請稍後再試"
      shown := [Entry.errDict (String.intercalate "；" errors) Option.none] }
  else if combined = [] then
    { status := "查詢完成：查無資料", shown := [] }
  else if errors ≠ [] then
    { status := "查詢完成，共 " ++ toString combined.length ++ " 筆資料（但有部分掛號查詢失敗）"
      shown := combined }
  else
    { status := "查詢完成，共 " ++ toString combined.length ++ " 筆資料"
      shown := combined }

/-- `task` (main.py lines 370-446), on the results the two `fetch_data`
calls returned (the run for an empty call sign never happens and its
`data` argument is ignored): south is processed first, then north. -/
def task (south_code north_code : String) (southData northData : List Entry) : TaskOutcome :=
  let s := runContribution "南掛 " south_code southData
  let n := runContribution "北掛 " north_code northData
  taskClassify (s.1 ++ n.1) (s.2 ++ n.2)

/-- A sample raw row exercising every normalized field. -/
def sampleRow : RawRow :=
  [("soNo", PyVal.strV "SO1"), ("vslName", PyVal.strV "EVER"),
   ("packQty1", PyVal.intV 3), ("inWareDate1", PyVal.strV "20251216 153545")]

/-- The canonical record produced for `sampleRow` under query code `"S"`. -/
def sampleItem : Item := parseRow (some "S") sampleRow

/-!
## Predicates used to state the claims
-/

/-- A string that denotes a non-negative integer (the decimal notation
`str(n)` produces for a natural number): non-empty and all digits. -/
def isNonNegIntString (s : String) : Bool :=
  !s.data.isEmpty && s.data.all Char.isDigit

/-- A well-formed `YYYY/MM/DD HH:MM` timestamp string: sixteen characters,
digits in the date/time positions and the fixed separators between them. -/
def isWellFormedTS (s : String) : Bool :=
  match s.data with
  | [y1, y2, y3, y4, c1, m1, m2, c2, d1, d2, c3, h1, h2, c4, n1, n2] =>
    y1.isDigit && y2.isDigit && y3.isDigit && y4.isDigit && (c1 == '/') &&
    m1.isDigit && m2.isDigit && (c2 == '/') && d1.isDigit && d2.isDigit &&
    (c3 == ' ') && h1.isDigit && h2.isDigit && (c4 == ':') &&
    n1.isDigit && n2.isDigit
  | _ => false

/-- Decidable substring test: `needle` occurs contiguously in `hay`. -/
def strContainsSub (hay needle : String) : Bool :=
  (List.range (hay.length + 1)).any
    (fun i => decide ((hay.data.drop i).take needle.length = needle.data))

/-- A page outcome on which the loop body necessarily ends the run: a
transport/parse failure, or a parsed body whose (defaulted) row list is
empty. -/
def stopResp : HttpOutcome → Bool
  | HttpOutcome.exc _ => true
  | HttpOutcome.resp status body =>
    if status ≠ 200 then true
    else
      match body with
      | RespBody.badJson _ _ => true
      | RespBody.json _ d => d.getD [] = []

/-!
## Concrete servers used in counterexamples and witnesses
-/

/-- A server whose first (and every) page request raises a connection
exception. -/
def firstPageFailServer : Server := fun _ => HttpOutcome.exc "boom"

/-- A server whose first page succeeds with one row and a reported total of
2, and whose second page raises a connection exception. -/
def laterPageFailServer : Server := fun p =>
  if p = 1 then HttpOutcome.resp 200 (RespBody.json (some 2) (some [sampleRow]))
  else HttpOutcome.exc "boom"

/-- A server that on page `p` reports a total of `p + 1` while delivering a
single row, so the accumulated count (`p` after page `p`) never reaches the
reported total and no page is ever empty. -/
def adversarialServer : Server := fun p =>
  HttpOutcome.resp 200 (RespBody.json (some ((p : Int) + 1)) (some [sampleRow]))

/-- A server that always answers with a parsed body whose row list is
empty. -/
def emptyPageServer : Server := fun _ => HttpOutcome.resp 200 (RespBody.json Option.none (some []))

/-- A server answering valid JSON that carries neither a `total` nor a
`data` field. -/
def missingFieldsServer : Server := fun _ => HttpOutcome.resp 200 (RespBody.json Option.none Option.none)

/-!
## Helper lemmas
-/

theorem foldl_append_eq_map {α β : Type} (f : α → β) :
    ∀ (l : List α) (acc : List β),
      l.foldl (fun results row => results ++ [f row]) acc = acc ++ l.map f := by
  intro l
  induction l with
  | nil => intro acc; simp
  | cons x xs ih => intro acc; simp [List.foldl_cons, ih]

theorem parse_json_list_eq_map (raw_list : List RawRow) (qc : Option String) :
    _parse_json_list raw_list qc = raw_list.map (parseRow qc) := by
  unfold _parse_json_list
  simpa using foldl_append_eq_map (parseRow qc) raw_list []

theorem parse_json_list_length (raw_list : List RawRow) (qc : Option String) :
    (_parse_json_list raw_list qc).length = raw_list.length := by
  rw [parse_json_list_eq_map, List.length_map]

theorem parse_json_list_ne_nil (raw_list : List RawRow) (qc : Option String)
    (h : raw_list ≠ []) : _parse_json_list raw_list qc ≠ [] := by
  rw [parse_json_list_eq_map]
  simpa using h

theorem qtyStr_shape (v : PyVal) :
    qtyStr v = "0" ∨ ∃ n : Int, qtyStr v = toString n := by
  cases v with
  | null => left; rfl
  | intV n => right; exact ⟨n, rfl⟩
  | strV s =>
    unfold qtyStr qtyTryBody tryE pyIntE
    cases h : pyParseInt s with
    | none => left; simp [h, Except.map]
    | some n => right; exact ⟨n, by simp [h, Except.map]⟩
  | boolV b =>
    cases b with
    | false => right; exact ⟨0, rfl⟩
    | true => right; exact ⟨1, rfl⟩
  | other tag => left; rfl

theorem failEntryOf_errDict (h : HttpOutcome) (e : Entry)
    (he : failEntryOf h = some e) : ∃ m r, e = Entry.errDict m r := by
  cases h with
  | exc m =>
    simp [failEntryOf] at he
    exact ⟨_, _, he.symm⟩
  | resp status body =>
    by_cases h200 : status = 200
    · subst h200
      cases body with
      | badJson m text =>
        simp [failEntryOf] at he
        exact ⟨_, _, he.symm⟩
      | json t d => simp [failEntryOf] at he
    · simp [failEntryOf, h200] at he
      exact ⟨_, _, he.symm⟩

theorem fetchStep_fail (server : Server) (qc : Option String) (p : Nat) (acc : List Entry)
    (e : Entry) (h : failEntryOf (server p) = some e) :
    fetchStep server qc (p, acc) = if acc = [] then StepRes.done [e] else StepRes.done acc := by
  cases hs : server p with
  | exc m =>
    rw [hs] at h
    simp [failEntryOf] at h
    subst h
    simp [fetchStep, hs]
  | resp status body =>
    rw [hs] at h
    by_cases h200 : status = 200
    · subst h200
      cases body with
      | badJson m text =>
        simp [failEntryOf] at h
        subst h
        simp [fetchStep, hs]
      | json t d => simp [failEntryOf] at h
    · simp [failEntryOf, h200] at h
      subst h
      simp [fetchStep, hs, h200]

theorem fetchStep_cont (server : Server) (qc : Option String) (st st2 : Nat × List Entry)
    (h : fetchStep server qc st = StepRes.cont st2) : st2.1 = st.1 + 1 ∧ st2.2 ≠ [] := by
  cases hs : server st.1 with
  | exc m =>
    by_cases ha : st.2 = [] <;> simp [fetchStep, hs, ha] at h
  | resp status body =>
    by_cases h200 : status = 200
    · subst h200
      cases body with
      | badJson m text =>
        by_cases ha : st.2 = [] <;> simp [fetchStep, hs, ha] at h
      | json t d =>
        by_cases hd : (d.getD [] : List RawRow) = []
        · simp [fetchStep, hs, hd] at h
        · simp only [fetchStep, hs] at h
          rw [if_neg (by simp)] at h
          rw [if_neg hd] at h
          split at h
          · cases h
          · cases h
            refine ⟨rfl, ?_⟩
            have hone : _parse_json_list (d.getD []) qc ≠ [] :=
              parse_json_list_ne_nil _ qc hd
            simp only [ne_eq, List.append_eq_nil, List.map_eq_nil_iff]
            intro hcon
            exact hone hcon.2
    · by_cases ha : st.2 = [] <;> simp [fetchStep, hs, h200, ha] at h

theorem stopResp_done (server : Server) (qc : Option String) (st : Nat × List Entry)
    (h : stopResp (server st.1) = true) : ∃ out, fetchStep server qc st = StepRes.done out := by
  cases hs : server st.1 with
  | exc m =>
    by_cases ha : st.2 = []
    · exact ⟨[Entry.errDict ("連線失敗：" ++ m) Option.none], by simp [fetchStep, hs, ha]⟩
    · exact ⟨st.2, by simp [fetchStep, hs, ha]⟩
  | resp status body =>
    rw [hs] at h
    by_cases h200 : status = 200
    · subst h200
      cases body with
      | badJson m text =>
        by_cases ha : st.2 = []
        · exact ⟨[Entry.errDict ("資料解析錯誤：" ++ m) (some (pyTakeStr text 200))],
            by simp [fetchStep, hs, ha]⟩
        · exact ⟨st.2, by simp [fetchStep, hs, ha]⟩
      | json t d =>
        simp [stopResp] at h
        exact ⟨st.2, by simp [fetchStep, hs, h]⟩
    · by_cases ha : st.2 = []
      · exact ⟨[Entry.errDict ("伺服器錯誤：HTTP " ++ toString status) Option.none],
          by simp [fetchStep, hs, h200, ha]⟩
      · exact ⟨st.2, by simp [fetchStep, hs, h200, ha]⟩

theorem fetchLoop_fail (server : Server) (qc : Option String) (p : Nat) (acc : List Entry)
    (e : Entry) (fuel : Nat) (hf : 0 < fuel) (h : failEntryOf (server p) = some e) :
    fetchLoop server qc fuel (p, acc) = some (if acc = [] then [e] else acc) := by
  cases fuel with
  | zero => exact absurd hf (by omega)
  | succ f =>
    have hstep := fetchStep_fail server qc p acc e h
    by_cases ha : acc = []
    · subst ha
      rw [if_pos rfl] at hstep
      simp [fetchLoop, hstep]
    · rw [if_neg ha] at hstep
      simp [fetchLoop, hstep, ha]

theorem iterCont_reach (server : Server) (qc : Option String) :
    ∀ (n : Nat) (st st2 : Nat × List Entry),
      iterCont server qc (n + 1) st = some st2 → st2.1 = st.1 + (n + 1) ∧ st2.2 ≠ [] := by
  intro n
  induction n with
  | zero =>
    intro st st2 h
    unfold iterCont at h
    cases hstep : fetchStep server qc st with
    | done out => rw [hstep] at h; cases h
    | cont st3 =>
      rw [hstep] at h
      unfold iterCont at h
      simp at h
      subst h
      exact fetchStep_cont server qc st _ hstep
  | succ n ih =>
    intro st st2 h
    unfold iterCont at h
    cases hstep : fetchStep server qc st with
    | done out => rw [hstep] at h; cases h
    | cont st3 =>
      rw [hstep] at h
      have hc := fetchStep_cont server qc st st3 hstep
      have hr := ih st3 st2 h
      refine ⟨?_, hr.2⟩
      rw [hr.1, hc.1]
      omega

theorem fetchLoop_terminates (server : Server) (qc : Option String) :
    ∀ (fuel : Nat) (st : Nat × List Entry),
      (∃ k, k < fuel ∧ stopResp (server (st.1 + k)) = true) →
      ∃ out, fetchLoop server qc fuel st = some out := by
  intro fuel
  induction fuel with
  | zero =>
    rintro st ⟨k, hk, _⟩
    exact absurd hk (by omega)
  | succ f ih =>
    rintro st ⟨k, hk, hstop⟩
    cases hstep : fetchStep server qc st with
    | done out => exact ⟨out, by simp [fetchLoop, hstep]⟩
    | cont st2 =>
      have hc := fetchStep_cont server qc st st2 hstep
      cases k with
      | zero =>
        obtain ⟨out, hout⟩ := stopResp_done server qc st (by simpa using hstop)
        rw [hstep] at hout
        cases hout
      | succ k2 =>
        have hstop2 : stopResp (server (st2.1 + k2)) = true := by
          rw [hc.1]
          have harith : st.1 + 1 + k2 = st.1 + (k2 + 1) := by omega
          rw [harith]
          exact hstop
        obtain ⟨out, hout⟩ := ih st2 ⟨k2, by omega, hstop2⟩
        exact ⟨out, by simpa [fetchLoop, hstep] using hout⟩

theorem dateStr_shape (v : PyVal) :
    dateStr v = noTimestampSentinel ∨
      ∃ s : String, v = PyVal.strV s ∧ 12 ≤ s.length ∧ dateStr v = fmtInWareDate s := by
  unfold dateStr
  cases v with
  | strV s =>
    by_cases h : 12 ≤ s.length
    · right
      refine ⟨s, rfl, h, ?_⟩
      simp [truthy, isStrPy, pyStrVal, h]
      intro hs
      subst hs
      simp at h
    · left
      simp [truthy, isStrPy, pyStrVal, h]
  | null => left; simp [truthy]
  | intV n => left; simp [isStrPy]
  | boolV b => left; simp [isStrPy]
  | other tag => left; simp [isStrPy]

/-!
## Claim theorems: the Record Normalizer (C4, C5, C6, C7, C8, C10)
-/

/-- C4 counterexample: the claim says every quantity output is a string
representation of a non-negative integer, but the raw quantity `-5` is
coerced by `str(int(-5))` to `"-5"`, which is not a non-negative integer
string. -/
theorem C4_counterexample :
    (parseRow (some "Q") [("packQty1", PyVal.intV (-5))]).qty = "-5" ∧
      isNonNegIntString "-5" = false := by
  decide

/-- C4 (amended): every quantity output is the decimal string of an integer
— possibly negative, since numeric input is passed through `str(int(·))` —
and absent, null and non-numeric raw values yield exactly `"0"`; on the
claim's listed inputs: absent ↦ "0", null ↦ "0", 0 ↦ "0", "12" ↦ "12",
"abc" ↦ "0", -5 ↦ "-5". -/
theorem C4_quantity_normalization :
    (∀ v : PyVal, qtyStr v = "0" ∨ ∃ n : Int, qtyStr v = toString n) ∧
      (parseRow (some "Q") []).qty = "0" ∧
      qtyStr PyVal.null = "0" ∧
      qtyStr (PyVal.intV 0) = "0" ∧
      qtyStr (PyVal.strV "12") = "12" ∧
      qtyStr (PyVal.strV "abc") = "0" ∧
      qtyStr (PyVal.intV (-5)) = "-5" := by
  refine ⟨qtyStr_shape, ?_, ?_, ?_, ?_, ?_, ?_⟩ <;> decide

/-- C5 counterexample: the claim says the digits-only, position-based input
`"20251216153545"` yields `"2025/12/16 15:35"`, but the code reads the hour
at offsets 9-10 and the minute at offsets 11-12 (it skips offset 8 as a
separator), so this 14-digit input yields `"2025/12/16 53:54"`. -/
theorem C5_counterexample :
    dateStr (PyVal.strV "20251216153545") = "2025/12/16 53:54" ∧
      "2025/12/16 53:54" ≠ "2025/12/16 15:35" := by
  decide

/-- C5 (amended): any raw timestamp of non-string type, and any string
shorter than 12 characters, maps to the sentinel; the position-based layout
skips offset 8 as a separator, so the separator-bearing input
`"20251216 153545"` yields `"2025/12/16 15:35"`, while the digits-only
`"20251216153545"` yields `"2025/12/16 53:54"`. -/
theorem C5_timestamp_normalization :
    (∀ v : PyVal, isStrPy v = false → dateStr v = noTimestampSentinel) ∧
      (∀ s : String, s.length < 12 → dateStr (PyVal.strV s) = noTimestampSentinel) ∧
      dateStr (PyVal.strV "20251216 153545") = "2025/12/16 15:35" ∧
      dateStr (PyVal.strV "20251216153545") = "2025/12/16 53:54" := by
  refine ⟨?_, ?_, by decide, by decide⟩
  · intro v hv
    cases v with
    | strV s => simp [isStrPy] at hv
    | null => rfl
    | intV n => simp [dateStr, isStrPy]
    | boolV b => simp [dateStr, isStrPy]
    | other tag => rfl
  · intro s hs
    have hnot : ¬ (12 ≤ s.length) := by omega
    simp [dateStr, truthy, isStrPy, pyStrVal, hnot]

/-- C5 witness: the amended statement applied at the concrete inputs
`PyVal.intV 7` (non-string) and `"short"` (length 5 < 12). -/
theorem C5_timestamp_normalization_witness :
    dateStr (PyVal.intV 7) = noTimestampSentinel ∧
      dateStr (PyVal.strV "short") = noTimestampSentinel :=
  ⟨C5_timestamp_normalization.1 (PyVal.intV 7) (by decide),
    C5_timestamp_normalization.2.1 "short" (by decide)⟩

/-- C6 counterexample: the claim says `warehoused_at` is always either a
well-formed `YYYY/MM/DD HH:MM` string or the sentinel, but the 12-character
non-digit raw value `"abcdefghijkl"` passes the guard and is positionally
reformatted into `"abcd/ef/gh jk:l"`, which is neither. -/
theorem C6_counterexample :
    dateStr (PyVal.strV "abcdefghijkl") = "abcd/ef/gh jk:l" ∧
      "abcd/ef/gh jk:l" ≠ noTimestampSentinel ∧
      isWellFormedTS "abcd/ef/gh jk:l" = false := by
  decide

/-- C6 (amended): `warehoused_at` is always either the sentinel or the
positional reformatting `raw[0:4]/raw[4:6]/raw[6:8] raw[9:11]:raw[11:13]`
of a raw string of length at least 12; the result is a well-formed
timestamp only when the raw string carries digits at those offsets (and has
length at least 13), so other raw strings give other, malformed outputs. -/
theorem C6_warehoused_at_shape (v : PyVal) :
    dateStr v = noTimestampSentinel ∨
      ∃ s : String, v = PyVal.strV s ∧ 12 ≤ s.length ∧ dateStr v = fmtInWareDate s :=
  dateStr_shape v

/-- C7 counterexample: the claim says a present-but-empty order-number
field maps to the `"無 S/O"` sentinel, but `row.get("soNo", "無 S/O")`
only falls back when the key is absent: a present empty string is passed
through. -/
theorem C7_counterexample :
    (parseRow (some "Q") [("soNo", PyVal.strV "")]).so_no = PyVal.strV "" ∧
      PyVal.strV "" ≠ PyVal.strV "無 S/O" := by
  decide

/-- C7 (amended): `so_no` equals the raw `soNo` value whenever the field is
present — even when it is null or the empty string — and equals the
`"無 S/O"` sentinel exactly when the field is absent. -/
theorem C7_order_number_default (row : RawRow) (qc : Option String) :
    (pyGet row "soNo" = Option.none → (parseRow qc row).so_no = PyVal.strV "無 S/O") ∧
      (∀ v : PyVal, pyGet row "soNo" = some v → (parseRow qc row).so_no = v) := by
  constructor
  · intro h
    simp [parseRow, pyGetD, h]
  · intro v h
    simp [parseRow, pyGetD, h]

/-- C7 witness: the amended statement applied to a row without `soNo` and a
row whose `soNo` is the empty string. -/
theorem C7_order_number_default_witness :
    (parseRow (some "Q") []).so_no = PyVal.strV "無 S/O" ∧
      (parseRow (some "Q") [("soNo", PyVal.strV "")]).so_no = PyVal.strV "" :=
  ⟨(C7_order_number_default [] (some "Q")).1 (by decide),
    (C7_order_number_default [("soNo", PyVal.strV "")] (some "Q")).2 (PyVal.strV "") (by decide)⟩

/-- C8 (confirmed): the normalizer is total — it produces exactly one item
per input row for every row list (no exception can escape: the only raising
operation, `int()`, sits inside a `try` whose handler yields `"0"`, and the
timestamp path degrades to the sentinel or the positional reformatting), so
every output field is a documented sentinel or passthrough value. -/
theorem C8_normalizer_never_raises (raw_list : List RawRow) (qc : Option String) :
    (_parse_json_list raw_list qc).length = raw_list.length ∧
      ∀ it ∈ _parse_json_list raw_list qc,
        (it.qty = "0" ∨ ∃ n : Int, it.qty = toString n) ∧
          (it.date = noTimestampSentinel ∨ ∃ s : String, it.date = fmtInWareDate s) := by
  refine ⟨parse_json_list_length raw_list qc, ?_⟩
  intro it hit
  rw [parse_json_list_eq_map] at hit
  obtain ⟨row, _, hrow⟩ := List.mem_map.mp hit
  subst hrow
  constructor
  · exact qtyStr_shape (pyGetN row "packQty1")
  · rcases dateStr_shape (pyGetN row "inWareDate1") with h | ⟨s, _, _, h⟩
    · exact Or.inl h
    · exact Or.inr ⟨s, h⟩

/-- C8 witness: the theorem applied to a one-row list containing a
malformed quantity and a malformed timestamp. -/
theorem C8_normalizer_never_raises_witness :
    (_parse_json_list [[("packQty1", PyVal.strV "abc"), ("inWareDate1", PyVal.intV 9)]]
        (some "Q")).length = 1 ∧
      ((parseRow (some "Q") [("packQty1", PyVal.strV "abc"), ("inWareDate1", PyVal.intV 9)]).qty = "0" ∨
        ∃ n : Int,
          (parseRow (some "Q") [("packQty1", PyVal.strV "abc"), ("inWareDate1", PyVal.intV 9)]).qty =
            toString n) :=
  ⟨(C8_normalizer_never_raises
      [[("packQty1", PyVal.strV "abc"), ("inWareDate1", PyVal.intV 9)]] (some "Q")).1,
    ((C8_normalizer_never_raises
        [[("packQty1", PyVal.strV "abc"), ("inWareDate1", PyVal.intV 9)]] (some "Q")).2
      (parseRow (some "Q") [("packQty1", PyVal.strV "abc"), ("inWareDate1", PyVal.intV 9)])
      (by decide)).1⟩

/-- C10 (confirmed): the normalizer is a deterministic, order-preserving
per-row map: it equals `List.map` of the single-row transform, its output
length equals its input length, and the i-th output depends only on the
i-th input row and the query code. -/
theorem C10_normalizer_is_map (raw_list : List RawRow) (qc : Option String) :
    _parse_json_list raw_list qc = raw_list.map (parseRow qc) ∧
      (_parse_json_list raw_list qc).length = raw_list.length ∧
      ∀ (i : Nat) (h1 : i < raw_list.length) (h2 : i < (_parse_json_list raw_list qc).length),
        (_parse_json_list raw_list qc).get ⟨i, h2⟩ = parseRow qc (raw_list.get ⟨i, h1⟩) := by
  refine ⟨parse_json_list_eq_map raw_list qc, parse_json_list_length raw_list qc, ?_⟩
  intro i h1 h2
  simp [parse_json_list_eq_map, List.get_eq_getElem]

/-- C10 witness: the theorem applied to a concrete two-row list at index 1. -/
theorem C10_normalizer_is_map_witness :
    (_parse_json_list [[], sampleRow] (some "S")).get
        ⟨1, by decide⟩ = parseRow (some "S") sampleRow :=
  (C10_normalizer_is_map [[], sampleRow] (some "S")).2.2 1 (by decide) (by decide)

/-!
## Claim theorems: the Pagination Engine (C1, C2, C9)
-/

/-- C1 (confirmed): a transport-level failure (connection exception,
non-200 status, or unparseable body) on the first page — before any rows
have been accumulated — makes the run return the one-element error list
(Failed) carrying the transport error message and zero records; the same
failure at any state the loop actually reaches after at least one completed
page truncates pagination and returns exactly the records accumulated from
the earlier pages. -/
theorem C1_failure_policy (server : Server) (vsl : String) (qco : Option String)
    (fuel : Nat) (e : Entry) (hfuel : 0 < fuel) :
    (failEntryOf (server 1) = some e →
      fetch_data server vsl qco fuel = some [e] ∧ itemsOf [e] = []) ∧
    (∀ (n : Nat) (st2 : Nat × List Entry),
      iterCont server (some (qco.getD vsl)) (n + 1) (1, []) = some st2 →
      failEntryOf (server st2.1) = some e →
      st2.2 ≠ [] ∧ fetchLoop server (some (qco.getD vsl)) fuel st2 = some st2.2) := by
  constructor
  · intro h
    constructor
    · unfold fetch_data
      have hrun := fetchLoop_fail server (some (qco.getD vsl)) 1 [] e fuel hfuel h
      simpa using hrun
    · obtain ⟨m, r, he⟩ := failEntryOf_errDict (server 1) e h
      subst he
      rfl
  · intro n st2 hreach hfail
    have hr := iterCont_reach server (some (qco.getD vsl)) n (1, []) st2 hreach
    refine ⟨hr.2, ?_⟩
    have hrun := fetchLoop_fail server (some (qco.getD vsl)) st2.1 st2.2 e fuel hfuel hfail
    rw [if_neg hr.2] at hrun
    simpa using hrun

/-- C1 witness: the theorem applied to a first-page connection failure
(`Failed` with the message, zero records) and to a second-page failure
after one accumulated record (`Ok` with that record). -/
theorem C1_failure_policy_witness :
    (fetch_data firstPageFailServer "S" Option.none 1 =
        some [Entry.errDict ("連線失敗：" ++ "boom") Option.none] ∧
      itemsOf [Entry.errDict ("連線失敗：" ++ "boom") Option.none] = []) ∧
    ([Entry.item sampleItem] ≠ ([] : List Entry) ∧
      fetchLoop laterPageFailServer (some "S") 1 (2, [Entry.item sampleItem]) =
        some [Entry.item sampleItem]) :=
  ⟨(C1_failure_policy firstPageFailServer "S" Option.none 1
      (Entry.errDict ("連線失敗：" ++ "boom") Option.none) Nat.one_pos).1 (by decide),
    (C1_failure_policy laterPageFailServer "S" Option.none 1
      (Entry.errDict ("連線失敗：" ++ "boom") Option.none) Nat.one_pos).2 0
      (2, [Entry.item sampleItem]) (by decide) (by decide)⟩

theorem adversarial_step (p : Nat) (acc : List Entry) (hlen : acc.length + 1 = p) :
    fetchStep adversarialServer (some "A") (p, acc) =
      StepRes.cont (p + 1, acc ++ [Entry.item (parseRow (some "A") sampleRow)]) := by
  have hlist : _parse_json_list [sampleRow] (some "A") = [parseRow (some "A") sampleRow] := by
    rw [parse_json_list_eq_map]
    rfl
  simp [fetchStep, adversarialServer, hlist]
  omega

theorem adversarial_loop :
    ∀ (fuel p : Nat) (acc : List Entry), acc.length + 1 = p →
      fetchLoop adversarialServer (some "A") fuel (p, acc) = Option.none := by
  intro fuel
  induction fuel with
  | zero => intro p acc h; rfl
  | succ f ih =>
    intro p acc h
    have hstep := adversarial_step p acc h
    simp only [fetchLoop, hstep]
    exact ih (p + 1) _ (by simp [List.length_append]; omega)

/-- C2 counterexample: the claim asserts termination for every response
sequence plus a short-page safety net.  Against `adversarialServer` the
engine never terminates (no fuel bound suffices), and on its very first
page — which carries 1 row, fewer than the requested page size of 500 —
the engine continues to the next page instead of stopping. -/
theorem C2_counterexample :
    (∀ fuel : Nat, fetch_data adversarialServer "A" Option.none fuel = Option.none) ∧
      adversarialServer 1 = HttpOutcome.resp 200 (RespBody.json (some 2) (some [sampleRow])) ∧
      [sampleRow].length < page_size ∧
      fetchStep adversarialServer (some "A") (1, []) =
        StepRes.cont (2, [Entry.item (parseRow (some "A") sampleRow)]) := by
  refine ⟨?_, by decide, by decide, by decide⟩
  intro fuel
  unfold fetch_data
  exact adversarial_loop fuel 1 [] rfl

/-- C2 (amended): the engine terminates whenever some page request
eventually yields a transport failure, an unparseable body, or an empty
(or absent) row list; it has no short-page safety net — a non-empty page
shorter than the requested page size of 500 does not stop pagination, so a
server total that always exceeds the accumulated count together with
never-empty pages loops forever. -/
theorem C2_termination_on_eventual_stop (server : Server) (vsl : String)
    (qco : Option String) (h : ∃ N : Nat, 1 ≤ N ∧ stopResp (server N) = true) :
    ∃ (fuel : Nat) (out : List Entry), fetch_data server vsl qco fuel = some out := by
  obtain ⟨N, hN, hstop⟩ := h
  refine ⟨N, ?_⟩
  unfold fetch_data
  refine fetchLoop_terminates server (some (qco.getD vsl)) N (1, []) ⟨N - 1, by omega, ?_⟩
  have harith : (((1 : Nat), ([] : List Entry)).1 + (N - 1)) = N := by simp; omega
  rw [harith]
  exact hstop

/-- C2 witness: the amended theorem applied to a server whose first page is
already an empty page. -/
theorem C2_termination_on_eventual_stop_witness :
    (1 ≤ 1 ∧ stopResp (emptyPageServer 1) = true) ∧
      ∃ (fuel : Nat) (out : List Entry),
        fetch_data emptyPageServer "Q" Option.none fuel = some out :=
  ⟨⟨le_refl 1, by decide⟩,
    C2_termination_on_eventual_stop emptyPageServer "Q" Option.none ⟨1, le_refl 1, by decide⟩⟩

/-- C9 counterexample: the claim says a valid-JSON first page lacking the
`total`/`data` fields is handled like a parse failure (`Failed`), but the
code defaults the missing fields (`total` to 0, `data` to `[]`) and treats
the page as an empty page: the run returns `Ok` with the empty record list,
which is not error-shaped, and the page outcome is not a transport/parse
failure. -/
theorem C9_counterexample :
    fetch_data missingFieldsServer "Q" Option.none 1 = some [] ∧
      errCheck [] = false ∧
      failEntryOf (missingFieldsServer 1) = Option.none := by
  decide

/-- C9 (amended): a valid-JSON body lacking the `data` field defaults it to
an empty row list, ending pagination as an empty page with `Ok` and the
records accumulated so far (so `Ok []` on the first page); a body lacking
the `total` field defaults it to 0, so a non-empty row list on such a page
is consumed and the run then stops successfully.  Missing fields are never
treated as a parse failure — only a body on which JSON parsing raises
is. -/
theorem C9_missing_fields_defaulted (server : Server) (qc : Option String) (p : Nat)
    (acc : List Entry) (fuel : Nat) (t : Option Int) (d : List RawRow) :
    (0 < fuel → server p = HttpOutcome.resp 200 (RespBody.json t Option.none) →
      fetchLoop server qc fuel (p, acc) = some acc) ∧
    (server p = HttpOutcome.resp 200 (RespBody.json Option.none (some d)) → d ≠ [] →
      fetchStep server qc (p, acc) =
        StepRes.done (acc ++ (_parse_json_list d qc).map Entry.item)) := by
  constructor
  · intro hfuel hs
    cases fuel with
    | zero => exact absurd hfuel (by omega)
    | succ f => simp [fetchLoop, fetchStep, hs]
  · intro hs hd
    simp [fetchStep, hs, hd]
    positivity

/-- C9 witness: the amended theorem applied to the missing-fields server at
page 3 with one accumulated record. -/
theorem C9_missing_fields_defaulted_witness :
    0 < 1 ∧
      fetchLoop missingFieldsServer (some "Q") 1 (3, [Entry.item sampleItem]) =
        some [Entry.item sampleItem] :=
  ⟨Nat.one_pos,
    (C9_missing_fields_defaulted missingFieldsServer (some "Q") 3 [Entry.item sampleItem] 1
      Option.none []).1 Nat.one_pos rfl⟩

/-!
## Claim theorems: the Multi-Query Orchestrator (C3)
-/

theorem intercalate_singleton (sep a : String) : String.intercalate sep [a] = a := rfl

theorem intercalate_pair (sep a b : String) :
    String.intercalate sep [a, b] = a ++ sep ++ b := rfl

theorem runContribution_err (tag code : String) (hc : code ≠ "") (m : String)
    (r : Option String) (rest : List Entry) :
    runContribution tag code (Entry.errDict m r :: rest) =
      ([], [tag ++ code ++ " 查詢失敗：" ++ m]) := by
  simp [runContribution, hc, errCheck, entryHasErrorKey, errMsgOf]

theorem runContribution_ok (tag code : String) (hc : code ≠ "") (data : List Entry)
    (hchk : errCheck data = false) : runContribution tag code data = (data, []) := by
  simp [runContribution, hc, hchk]

theorem taskClassify_allFailed (errors : List String) (he : errors ≠ []) :
    taskClassify [] errors =
      { status := "查詢失敗，請稍後再試"
        shown := [Entry.errDict (String.intercalate "；" errors) Option.none] } := by
  simp [taskClassify, he]

theorem taskClassify_empty : taskClassify [] [] = { status := "查詢完成：查無資料", shown := [] } := by
  simp [taskClassify]

theorem taskClassify_partial (combined : List Entry) (errors : List String)
    (hc : combined ≠ []) (he : errors ≠ []) :
    taskClassify combined errors =
      { status := "查詢完成，共 " ++ toString combined.length ++ " 筆資料（但有部分掛號查詢失敗）"
        shown := combined } := by
  simp [taskClassify, hc, he]

theorem taskClassify_success (combined : List Entry) (hc : combined ≠ []) :
    taskClassify combined [] =
      { status := "查詢完成，共 " ++ toString combined.length ++ " 筆資料"
        shown := combined } := by
  simp [taskClassify, hc]

/-- C3 counterexample: with a south-only success (one record) and a north
failure carrying message `"X"`, the claim says the partial-failure outcome
surfaces the failure messages; the code instead shows the records together
with a fixed notice — the collected north failure message (and even the
string `"X"`) appears nowhere in the status line or the shown list. -/
theorem C3_counterexample :
    task "S" "N" [Entry.item sampleItem] [Entry.errDict "X" Option.none] =
      { status := "查詢完成，共 1 筆資料（但有部分掛號查詢失敗）"
        shown := [Entry.item sampleItem] } ∧
      strContainsSub "查詢完成，共 1 筆資料（但有部分掛號查詢失敗）" "X" = false ∧
      ([Entry.item sampleItem].all (fun e => !entryHasErrorKey e)) = true := by
  decide

/-- C3 (amended): with both identifiers supplied, the orchestrator
classifies in priority order — both runs error-shaped: all-failed status
with the identifier-prefixed messages joined by `"；"`; no records and no
failures: the empty outcome; at least one record plus a failure: the merged
records are shown with a fixed partial-failure notice (the collected
failure message strings are discarded in this case); records and no
failures: success with the merged records. -/
theorem C3_outcome_classification (sc nc : String) (hsc : sc ≠ "") (hnc : nc ≠ "")
    (m1 m2 : String) (r1 r2 : Option String) (sd nd : List Entry) :
    (task sc nc (Entry.errDict m1 r1 :: sd) (Entry.errDict m2 r2 :: nd) =
      { status := "查詢失敗，請稍後再試"
        shown := [Entry.errDict
          ("南掛 " ++ sc ++ " 查詢失敗：" ++ m1 ++ "；" ++ ("北掛 " ++ nc ++ " 查詢失敗：" ++ m2))
          Option.none] }) ∧
    (task sc nc [] [] = { status := "查詢完成：查無資料", shown := [] }) ∧
    (errCheck sd = false → sd ≠ [] →
      task sc nc sd (Entry.errDict m2 r2 :: nd) =
        { status := "查詢完成，共 " ++ toString sd.length ++ " 筆資料（但有部分掛號查詢失敗）"
          shown := sd }) ∧
    (task sc nc [] (Entry.errDict m2 r2 :: nd) =
      { status := "查詢失敗，請稍後再試"
        shown := [Entry.errDict ("北掛 " ++ nc ++ " 查詢失敗：" ++ m2) Option.none] }) ∧
    (errCheck sd = false → errCheck nd = false → sd ++ nd ≠ [] →
      task sc nc sd nd =
        { status := "查詢完成，共 " ++ toString (sd ++ nd).length ++ " 筆資料"
          shown := sd ++ nd }) := by
  refine ⟨?_, ?_, ?_, ?_, ?_⟩
  · show taskClassify _ _ = _
    rw [runContribution_err "南掛 " sc hsc m1 r1 sd, runContribution_err "北掛 " nc hnc m2 r2 nd]
    show taskClassify ([] ++ []) (["南掛 " ++ sc ++ " 查詢失敗：" ++ m1] ++ ["北掛 " ++ nc ++ " 查詢失敗：" ++ m2]) = _
    rw [List.nil_append, taskClassify_allFailed _ (by simp)]
    rw [show (["南掛 " ++ sc ++ " 查詢失敗：" ++ m1] ++ ["北掛 " ++ nc ++ " 查詢失敗：" ++ m2]) =
        ["南掛 " ++ sc ++ " 查詢失敗：" ++ m1, "北掛 " ++ nc ++ " 查詢失敗：" ++ m2] from rfl]
    rw [intercalate_pair]
  · show taskClassify _ _ = _
    rw [runContribution_ok "南掛 " sc hsc [] rfl, runContribution_ok "北掛 " nc hnc [] rfl]
    exact taskClassify_empty
  · intro hchk hne
    show taskClassify _ _ = _
    rw [runContribution_ok "南掛 " sc hsc sd hchk, runContribution_err "北掛 " nc hnc m2 r2 nd]
    show taskClassify (sd ++ []) ([] ++ ["北掛 " ++ nc ++ " 查詢失敗：" ++ m2]) = _
    rw [List.append_nil, List.nil_append]
    exact taskClassify_partial sd _ hne (by simp)
  · show taskClassify _ _ = _
    rw [runContribution_ok "南掛 " sc hsc [] rfl, runContribution_err "北掛 " nc hnc m2 r2 nd]
    show taskClassify ([] ++ []) ([] ++ ["北掛 " ++ nc ++ " 查詢失敗：" ++ m2]) = _
    rw [List.nil_append, List.nil_append]
    rw [taskClassify_allFailed _ (by simp), intercalate_singleton]
  · intro hsd hnd hne
    show taskClassify _ _ = _
    rw [runContribution_ok "南掛 " sc hsc sd hsd, runContribution_ok "北掛 " nc hnc nd hnd]
    show taskClassify (sd ++ nd) ([] ++ []) = _
    rw [List.nil_append]
    exact taskClassify_success _ hne

/-- C3 witness: the amended classification applied to concrete runs —
both-failed, both-empty, partial (one south record, north failed), and
full success. -/
theorem C3_outcome_classification_witness :
    (task "S" "N" [Entry.errDict "X" Option.none] [Entry.errDict "Y" Option.none] =
      { status := "查詢失敗，請稍後再試"
        shown := [Entry.errDict
          ("南掛 " ++ "S" ++ " 查詢失敗：" ++ "X" ++ "；" ++ ("北掛 " ++ "N" ++ " 查詢失敗：" ++ "Y"))
          Option.none] }) ∧
    (task "S" "N" [] [] = { status := "查詢完成：查無資料", shown := [] }) ∧
    (task "S" "N" [Entry.item sampleItem] [Entry.errDict "Y" Option.none] =
      { status := "查詢完成，共 " ++ toString [Entry.item sampleItem].length ++
          " 筆資料（但有部分掛號查詢失敗）"
        shown := [Entry.item sampleItem] }) ∧
    (task "S" "N" [Entry.item sampleItem] [] =
      { status := "查詢完成，共 " ++ toString ([Entry.item sampleItem] ++ ([] : List Entry)).length ++
          " 筆資料"
        shown := [Entry.item sampleItem] ++ ([] : List Entry) }) :=
  ⟨(C3_outcome_classification "S" "N" (by decide) (by decide) "X" "Y" Option.none Option.none
      [] []).1,
    (C3_outcome_classification "S" "N" (by decide) (by decide) "X" "Y" Option.none Option.none
      [] []).2.1,
    (C3_outcome_classification "S" "N" (by decide) (by decide) "X" "Y" Option.none Option.none
      [Entry.item sampleItem] []).2.2.1 (by decide) (by decide),
    (C3_outcome_classification "S" "N" (by decide) (by decide) "X" "Y" Option.none Option.none
      [Entry.item sampleItem] []).2.2.2.2 (by decide) (by decide) (by decide)⟩
